import Mathlib

/-!
Verification of the MediaTracker-Server device-link subsystem.

Shallow embedding of the pure/stateful core of `transport.py`,
`main.py` (serial writer / monitor-loop / artwork sender / command
dispatcher) and `image_utils.py` (RGB565 pixel codec, base64 framing),
with theorems settling the testable properties of the specification.

Conventions: machine bytes are `Nat` values `< 256`; byte strings are
`List Nat`; text is `List Char`; Python `queue.Queue` contents are
`List` with the head as the oldest entry; wall-clock instants are `Nat`
ticks (only comparisons and differences of times occur in the code).
-/

namespace MediaTracker

/-! ### Pixel codec (`image_utils.rgb_to_rgb565`) -/

/-- One pixel's packed 16-bit value, from `image_utils.rgb_to_rgb565`:
`r5 = (r >> 3) & 0x1F`, `g6 = (g >> 2) & 0x3F`, `b5 = (b >> 3) & 0x1F`,
`rgb565 = (r5 << 11) | (g6 << 5) | b5`. -/
def rgb565 (r g b : Nat) : Nat :=
  let r5 := (r >>> 3) &&& 0x1F
  let g6 := (g >>> 2) &&& 0x3F
  let b5 := (b >>> 3) &&& 0x1F
  (r5 <<< 11) ||| (g6 <<< 5) ||| b5

/-- The two bytes emitted for one pixel, little-endian
(`result[idx] = rgb565 & 0xFF; result[idx+1] = (rgb565 >> 8) & 0xFF`). -/
def pixelBytes (p : Nat × Nat × Nat) : List Nat :=
  let v := rgb565 p.1 p.2.1 p.2.2
  [v &&& 0xFF, (v >>> 8) &&& 0xFF]

/-- `image_utils.rgb_to_rgb565`: the double loop `for y in range(height):
for x in range(width):` appending two little-endian bytes per pixel.
The image is modelled as its list of rows (top to bottom), each row a
list of `(r, g, b)` pixels (left to right). -/
def rgb_to_rgb565 (img : List (List (Nat × Nat × Nat))) : List Nat :=
  img.foldl (fun acc row => row.foldl (fun acc2 p => acc2 ++ pixelBytes p) acc) []


/-! ### Base64 (semantics of Python `base64.b64encode` / `b64decode`,
standard alphabet with `=` padding, as called by
`image_utils.rgb565_to_base64` and the artwork sender) -/

def b64Alphabet : List Char :=
  "ABCDEFGHIJKLMNOPQRSTUVWXYZabcdefghijklmnopqrstuvwxyz0123456789+/".toList

def sextetToChar (n : Nat) : Char := b64Alphabet.getD n 'A'

def charToSextet (c : Char) : Nat := b64Alphabet.findIdx (fun x => x = c)

/-- Standard base64 of a byte string: 3 bytes become 4 alphabet characters;
a 1-byte remainder becomes 2 characters plus `==`, a 2-byte remainder
becomes 3 characters plus `=`. -/
def b64encodeBytes : List Nat → List Char
  | [] => []
  | [a] => [sextetToChar (a / 4), sextetToChar (a % 4 * 16), '=', '=']
  | [a, b] => [sextetToChar (a / 4), sextetToChar (a % 4 * 16 + b / 16),
      sextetToChar (b % 16 * 4), '=']
  | a :: b :: c :: rest =>
      sextetToChar (a / 4) :: sextetToChar (a % 4 * 16 + b / 16) ::
        sextetToChar (b % 16 * 4 + c / 64) :: sextetToChar (c % 64) ::
        b64encodeBytes rest

/-- Standard base64 decoding of well-formed base64 text (4-character groups,
`=` padding in the final group). -/
def b64decodeChars : List Char → List Nat
  | c1 :: c2 :: c3 :: c4 :: rest =>
      let s1 := charToSextet c1
      let s2 := charToSextet c2
      if c3 = '=' then [s1 * 4 + s2 / 16]
      else
        let s3 := charToSextet c3
        if c4 = '=' then [s1 * 4 + s2 / 16, s2 % 16 * 16 + s3 / 4]
        else (s1 * 4 + s2 / 16) :: (s2 % 16 * 16 + s3 / 4) ::
          (s3 % 4 * 64 + charToSextet c4) :: b64decodeChars rest
  | _ => []

/-- `image_utils.rgb565_to_base64`. -/
def rgb565_to_base64 (data : List Nat) : List Char := b64encodeBytes data


/-! ### Chunking and wire framing (`main.send_artwork_to_esp`) -/

/-- Python slicing loop `for i in range(0, len(s), n): s[i:i+n]`. -/
def chunksOf (n : Nat) (s : List Char) : List (List Char) :=
  (List.range ((s.length + n - 1) / n)).map (fun i => (s.drop (i * n)).take n)

/-- The chunk size used by `send_artwork_to_esp` (`CHUNK_SIZE = 512`). -/
def CHUNK_SIZE : Nat := 512

/-- The `"IMG:"` line header. -/
def imgHeader : List Char := "IMG:".toList

/-- The terminator line `"IMG_END\n"`. -/
def imgEndLine : List Char := "IMG_END\n".toList

/-- The full sequence of wire lines produced by one artwork transfer in
`send_artwork_to_esp`: each base64 chunk wrapped as `IMG:<chunk>\n`, then
the single `IMG_END\n` terminator. -/
def artworkLines (b64 : List Char) : List (List Char) :=
  (chunksOf CHUNK_SIZE b64).map (fun ch => imgHeader ++ ch ++ ['\n']) ++ [imgEndLine]

/-- Receiver-side reassembly described by the specification: keep the
`IMG:`-prefixed lines, strip the 4-character header and the newline,
and concatenate the chunks. -/
def reassemble (lines : List (List Char)) : List Char :=
  ((lines.filter (fun l => l.take 4 == imgHeader)).map
    (fun l => (l.drop 4).dropLast)).flatten

/-! ### Send queues (`transport.TransportManager` and the `main` module
globals). Queues are lists with the head as the oldest entry. -/

/-- An entry on a send queue: payload bytes plus the type tag the source
attaches (`"snapshot"`, `"artwork"`, `"artwork_chunk"`). -/
structure OutItem where
  payload : List Nat
  tag : String
deriving DecidableEq

/-- The four bounded send queues of the system:
`TransportManager._priority_queue` (`maxsize=2`) and
`TransportManager._send_queue` in `transport.py`, and the module-level
`_serial_priority_queue` (`maxsize=2`) and `_serial_queue` in `main.py`. -/
structure QueueState where
  tmPrio : List OutItem
  tmNormal : List OutItem
  mainPrio : List OutItem
  mainNormal : List OutItem
deriving DecidableEq

/-- `main.SERIAL_MAX_QUEUE` (default 8). -/
def SERIAL_MAX_QUEUE : Nat := 8

/-- `TransportManager.queue_send`: a priority item is `put_nowait` onto the
`maxsize=2` priority queue and `queue.Full` is swallowed (the NEW item is
dropped); a normal item is enqueued only when `qsize() < 8`. -/
def queue_send (st : QueueState) (item : OutItem) (priority : Bool) : QueueState :=
  if priority then
    if st.tmPrio.length < 2 then { st with tmPrio := st.tmPrio ++ [item] } else st
  else
    if st.tmNormal.length < 8 then { st with tmNormal := st.tmNormal ++ [item] }
    else st

/-- The snapshot enqueue of `system_monitor_loop`: when the queue has
reached `SERIAL_MAX_QUEUE` the oldest entry is removed with `get_nowait`,
then the new line is enqueued. -/
def monitorSnapshotEnqueue (st : QueueState) (item : OutItem) : QueueState :=
  let q := if st.mainNormal.length ≥ SERIAL_MAX_QUEUE then st.mainNormal.tail
    else st.mainNormal
  { st with mainNormal := q ++ [item] }

/-- The artwork enqueue of `system_monitor_loop`: when the `maxsize=2`
priority queue is `full()` the oldest entry is removed, then the new
message is `put_nowait` (a `queue.Full` raised by the put itself is caught
and the new item is lost). -/
def monitorArtworkEnqueue (st : QueueState) (item : OutItem) : QueueState :=
  let q := if st.mainPrio.length ≥ 2 then st.mainPrio.tail else st.mainPrio
  if q.length < 2 then { st with mainPrio := q ++ [item] } else { st with mainPrio := q }

/-- The chunk enqueue of `send_artwork_to_esp` onto
`_serial_priority_queue`: the same evict-oldest-then-put pattern as the
monitor loop's artwork path. -/
def artworkChunkEnqueue (st : QueueState) (item : OutItem) : QueueState :=
  monitorArtworkEnqueue st item

/-- The enqueue operations of the system (every producer-side path that
inserts into a send queue). All of them are non-blocking in the source:
`put_nowait`, `put(..., block=False)`, or a `put` on an unbounded queue. -/
inductive EnqueueOp where
  | qsend (item : OutItem) (priority : Bool)
  | monSnapshot (item : OutItem)
  | monArtwork (item : OutItem)
  | artChunk (item : OutItem)
deriving DecidableEq

def applyOp (st : QueueState) : EnqueueOp → QueueState
  | .qsend item p => queue_send st item p
  | .monSnapshot item => monitorSnapshotEnqueue st item
  | .monArtwork item => monitorArtworkEnqueue st item
  | .artChunk item => artworkChunkEnqueue st item

def applyOps (st : QueueState) (ops : List EnqueueOp) : QueueState :=
  ops.foldl applyOp st

/-- The capacity invariant: both priority queues hold at most 2 entries
and both normal queues at most 8. -/
def Bounded (st : QueueState) : Prop :=
  st.tmPrio.length ≤ 2 ∧ st.tmNormal.length ≤ 8 ∧
    st.mainPrio.length ≤ 2 ∧ st.mainNormal.length ≤ 8

/-! ### Transport selection and per-transport send/receive
(`transport.py`) -/

inductive TKind where
  | serial
  | tcp
deriving DecidableEq

/-- A registered transport as the manager sees it: its concrete class and
what `is_connected()` currently reports. -/
structure TransportEntry where
  kind : TKind
  connected : Bool
deriving DecidableEq

def isTcpConn (t : TransportEntry) : Bool := t.kind == TKind.tcp && t.connected

def isSerialConn (t : TransportEntry) : Bool := t.kind == TKind.serial && t.connected

/-- `TransportManager._get_active_transport`: the first connected
`TcpServerTransport` in registration order, otherwise the first connected
`SerialTransport`, otherwise none. -/
def get_active_transport (ts : List TransportEntry) : Option TransportEntry :=
  match ts.find? isTcpConn with
  | some t => some t
  | none => ts.find? isSerialConn

/-- `SerialTransport` connection state: `none` when no handle is held,
otherwise `some isOpen` for the pyserial handle's `is_open` flag. -/
structure SerialState where
  serial : Option Bool
deriving DecidableEq

inductive WriteOutcome where
  | ok
  | err
deriving DecidableEq

/-- `SerialTransport.send_line`: `False` without a handle; otherwise the
device write is attempted and an exception is caught, logged and turned
into `False`. No branch closes or clears the handle. -/
def serial_send_line (st : SerialState) (w : WriteOutcome) : Bool × SerialState :=
  match st.serial with
  | none => (false, st)
  | some _ => (w == WriteOutcome.ok, st)

inductive ReadOutcome where
  | noData
  | line (s : List Char)
  | err
deriving DecidableEq

/-- `SerialTransport.recv_line`: `None` without a handle; with waiting
data, the stripped line (`None` when it strips to empty); a read exception
is caught, logged, and `None` returned. No branch closes or clears the
handle. -/
def serial_recv_line (st : SerialState) (o : ReadOutcome) :
    Option (List Char) × SerialState :=
  match st.serial with
  | none => (none, st)
  | some _ =>
    match o with
    | .noData => (none, st)
    | .line s => (if s = [] then none else some s, st)
    | .err => (none, st)

/-- `SerialTransport.is_connected`: a handle is held and reports open. -/
def serial_is_connected (st : SerialState) : Bool :=
  match st.serial with
  | some b => b
  | none => false

/-- `TcpServerTransport` client state: the accepted client socket (if
any) and the receive buffer. -/
structure TcpState where
  client : Option Unit
  recvBuffer : List Char
deriving DecidableEq

/-- `TcpServerTransport._disconnect_client`. -/
def tcp_disconnect_client (_st : TcpState) : TcpState :=
  { client := none, recvBuffer := [] }

/-- `TcpServerTransport.send_line`: `False` without a client; a send error
disconnects the client and returns `False`. -/
def tcp_send_line (st : TcpState) (w : WriteOutcome) : Bool × TcpState :=
  match st.client with
  | none => (false, st)
  | some _ =>
    match w with
    | .ok => (true, st)
    | .err => (false, tcp_disconnect_client st)

/-- Python `str.strip()` (both ends, ASCII whitespace). -/
def isPySpace (c : Char) : Bool :=
  c = ' ' || c = '\t' || c = '\n' || c = '\r' || c = '\x0B' || c = '\x0C'

def pyStrip (s : List Char) : List Char :=
  ((s.dropWhile isPySpace).reverse.dropWhile isPySpace).reverse

/-- `buffer.split('\n', 1)` when a newline is present. -/
def splitFirstNL : List Char → Option (List Char × List Char)
  | [] => none
  | c :: rest =>
    if c = '\n' then some ([], rest)
    else (splitFirstNL rest).map (fun p => (c :: p.1, p.2))

inductive TcpRecvOutcome where
  | timeout
  | data (s : List Char)
  | err
deriving DecidableEq

/-- `TcpServerTransport.recv_line`: `None` without a client; otherwise a
complete buffered line is returned stripped, else up to 4096 bytes are
received (an empty `recv` result means the peer closed: disconnect; a
socket timeout returns `None`; any other error disconnects). -/
def tcp_recv_line (st : TcpState) (o : TcpRecvOutcome) :
    Option (List Char) × TcpState :=
  match st.client with
  | none => (none, st)
  | some _ =>
    match splitFirstNL st.recvBuffer with
    | some (line, rest) => (some (pyStrip line), { st with recvBuffer := rest })
    | none =>
      match o with
      | .timeout => (none, st)
      | .err => (none, tcp_disconnect_client st)
      | .data s =>
        if s = [] then (none, tcp_disconnect_client st)
        else
          match splitFirstNL (st.recvBuffer ++ s) with
          | some (line, rest) => (some (pyStrip line), { st with recvBuffer := rest })
          | none => (none, { st with recvBuffer := st.recvBuffer ++ s })

/-- `TcpServerTransport.is_connected`: a client socket is present. -/
def tcp_is_connected (st : TcpState) : Bool := st.client.isSome

/-! ### Writer loops -/

/-- The observable effect of one writer-loop iteration. -/
structure WriterStep where
  prio : List OutItem
  normal : List OutItem
  sent : Option OutItem
  dequeuedNormal : Bool
deriving DecidableEq

/-- One iteration of `TransportManager._writer_loop`: resolve the active
transport (sleep and continue if none), `get_nowait` the priority queue
and `continue` on success, otherwise take one normal item. -/
def transport_writer_iter (ts : List TransportEntry) (prio normal : List OutItem) :
    WriterStep :=
  match get_active_transport ts with
  | none => ⟨prio, normal, none, false⟩
  | some _ =>
    match prio with
    | item :: rest => ⟨rest, normal, some item, false⟩
    | [] =>
      match normal with
      | item :: rest => ⟨[], rest, some item, true⟩
      | [] => ⟨[], [], none, false⟩

/-- One iteration of `main._serial_writer_loop`: `get_nowait` the priority
queue and `continue` on success, otherwise block on the normal queue.
Either item is written only when `ser` is open (it is discarded
otherwise). -/
def serial_writer_iter (serPresent : Bool) (prio normal : List OutItem) : WriterStep :=
  match prio with
  | item :: rest => ⟨rest, normal, if serPresent then some item else none, false⟩
  | [] =>
    match normal with
    | item :: rest => ⟨[], rest, if serPresent then some item else none, true⟩
    | [] => ⟨[], [], none, false⟩

/-! ### Snapshot scheduler tick (`main.system_monitor_loop`) -/

/-- The serial-send state of `system_monitor_loop`:
`_last_sent_snapshot_fingerprint`, `_last_serial_sent_time`, and the
`_serial_queue` contents. Monotonic-clock instants are modelled as `Nat`
ticks (the code only compares and subtracts them). -/
structure MonitorState where
  lastFingerprint : Option String
  lastSentTime : Nat
  queue : List OutItem
deriving DecidableEq

/-- The observable effect of the send portion of one scheduler tick. -/
structure TickResult where
  broadcast : Bool
  enqueued : Bool
  state : MonitorState
deriving DecidableEq

/-- One scheduler tick's send decision (`system_monitor_loop`): the
snapshot is always broadcast to Socket.IO clients; the serial enqueue is
skipped when the fingerprint equals the last sent one and less than
`minInterval` has elapsed, otherwise the line is enqueued (evicting the
oldest entry when the queue is at `SERIAL_MAX_QUEUE`) and the fingerprint
and send time are recorded. -/
def monitor_tick (st : MonitorState) (serPresent : Bool) (fp : String)
    (now minInterval : Nat) (line : OutItem) : TickResult :=
  if serPresent = false then ⟨true, false, st⟩
  else
    let shouldSend :=
      !(st.lastFingerprint == some fp && decide (now - st.lastSentTime < minInterval))
    if shouldSend then
      let q := if st.queue.length ≥ SERIAL_MAX_QUEUE then st.queue.tail else st.queue
      ⟨true, true, ⟨some fp, now, q ++ [line]⟩⟩
    else ⟨true, false, st⟩

/-! ### Artwork submission (`main.send_artwork_to_esp`) -/

/-- The `_last_artwork_url` global. -/
structure ArtworkSendState where
  lastArtworkUrl : Option String
deriving DecidableEq

/-- `main.send_artwork_to_esp`: no-op without a serial handle or for an
empty URL; no-op when the URL equals `_last_artwork_url`; otherwise the
image is fetched and converted by `url_to_rgb565` (injected collaborator;
`None` on failure aborts with no output), base64-encoded, split into
`CHUNK_SIZE` chunks framed as `IMG:` lines followed by `IMG_END`, and
`_last_artwork_url` is updated. Returns the emitted wire lines. -/
def send_artwork_to_esp (st : ArtworkSendState) (serPresent : Bool) (url : String)
    (fetch : String → Option (List Nat)) : List (List Char) × ArtworkSendState :=
  if serPresent = false || url = "" then ([], st)
  else if some url == st.lastArtworkUrl then ([], st)
  else
    match fetch url with
    | none => ([], st)
    | some data => (artworkLines (rgb565_to_base64 data), ⟨some url⟩)

/-! ### Command dispatch (`main.serial_command_loop`) -/

/-- JSON values as produced by `json.loads`. -/
inductive JValue where
  | null
  | bool (b : Bool)
  | num (n : Int)
  | str (s : String)
  | arr (xs : List JValue)
  | obj (fields : List (String × JValue))

/-- Python truthiness of a JSON value. -/
def truthy : JValue → Bool
  | .null => false
  | .bool b => b
  | .num n => n != 0
  | .str s => !(s == "")
  | .arr xs => !xs.isEmpty
  | .obj fs => !fs.isEmpty

/-- `dict.get` (`json.loads` yields no duplicate keys). -/
def jget (fields : List (String × JValue)) (k : String) : Option JValue :=
  (fields.find? (fun p => p.1 == k)).map Prod.snd

/-- `cmd.get("cmd") or cmd.get("type")` with Python `or` semantics. -/
def kindOf (fields : List (String × JValue)) : Option JValue :=
  match jget fields "cmd" with
  | some v => if truthy v then some v else jget fields "type"
  | none => jget fields "type"

/-- The command kinds `serial_command_loop` matches exactly. -/
def knownKinds : List String :=
  ["kill", "play", "pause", "next", "previous",
    "queue_action", "playlist_action", "like_track"]

inductive DispatchOutcome where
  | notJson
  | nonObject
  | noKind
  | routed (kind : String) (handlerOk : Bool)
  | unknownKind
deriving DecidableEq

/-- The handling of one received line in `serial_command_loop`: parse
(`none` models a `json.loads` failure, which is logged and skipped),
reject non-dict values, reject a missing or falsy `cmd`/`type` field,
route by exact string match on the kind, and log unknown kinds. `handler`
reports whether the routed handler ran without raising; a raised
exception is caught and logged per command, so every input yields an
outcome and the reader loop always proceeds to the next line. -/
def dispatch_line (parsed : Option JValue) (handler : String → Bool) :
    DispatchOutcome :=
  match parsed with
  | none => .notJson
  | some (.obj fields) =>
    match kindOf fields with
    | none => .noKind
    | some k =>
      if truthy k = false then .noKind
      else
        match k with
        | .str s => if s ∈ knownKinds then .routed s (handler s) else .unknownKind
        | _ => .unknownKind
  | some _ => .nonObject


/-! ### Supporting lemmas -/

theorem row_foldl_pixelBytes (row : List (Nat × Nat × Nat)) (acc : List Nat) :
    row.foldl (fun a p => a ++ pixelBytes p) acc = acc ++ (row.map pixelBytes).flatten := by
  induction row generalizing acc with
  | nil => simp
  | cons p rest ih => simp [List.foldl_cons, ih, List.append_assoc]

theorem rgb_to_rgb565_foldl (img : List (List (Nat × Nat × Nat))) (acc : List Nat) :
    img.foldl (fun a row => row.foldl (fun a2 p => a2 ++ pixelBytes p) a) acc =
      acc ++ (img.map (fun row => (row.map pixelBytes).flatten)).flatten := by
  induction img generalizing acc with
  | nil => simp
  | cons row rest ih =>
    rw [List.foldl_cons, ih, row_foldl_pixelBytes]
    simp [List.append_assoc]

/-- The conversion emits rows top-to-bottom and pixels left-to-right,
two bytes per pixel. -/
theorem rgb_to_rgb565_eq_flatten (img : List (List (Nat × Nat × Nat))) :
    rgb_to_rgb565 img = (img.map (fun row => (row.map pixelBytes).flatten)).flatten := by
  simpa using rgb_to_rgb565_foldl img []

theorem and_mask_of_lt (n : Nat) {x : Nat} (m : Nat) (hm : m = 2 ^ n - 1)
    (h : x < 2 ^ n) : x &&& m = x := by
  subst hm; exact Nat.and_pow_two_sub_one_of_lt_two_pow h

theorem rgb565_lt (r g b : Nat) : rgb565 r g b < 65536 := by
  have h1 : ((r >>> 3) &&& 0x1F) <<< 11 < 2 ^ 16 := by
    have : (r >>> 3) &&& 0x1F < 32 := Nat.lt_succ_of_le (Nat.and_le_right)
    rw [Nat.shiftLeft_eq]
    omega
  have h2 : ((g >>> 2) &&& 0x3F) <<< 5 < 2 ^ 16 := by
    have : (g >>> 2) &&& 0x3F < 64 := Nat.lt_succ_of_le (Nat.and_le_right)
    rw [Nat.shiftLeft_eq]
    omega
  have h3 : (b >>> 3) &&& 0x1F < 2 ^ 16 := by
    have : (b >>> 3) &&& 0x1F < 32 := Nat.lt_succ_of_le (Nat.and_le_right)
    omega
  have := Nat.or_lt_two_pow (Nat.or_lt_two_pow h1 h2) h3
  simpa [rgb565] using this

/-- For byte inputs the masks in the source are no-ops: the packed word is
exactly the claimed `((r>>3)<<11) | ((g>>2)<<5) | (b>>3)`. -/
theorem rgb565_formula (r g b : Nat) (hr : r < 256) (hg : g < 256) (hb : b < 256) :
    rgb565 r g b = ((r >>> 3) <<< 11) ||| ((g >>> 2) <<< 5) ||| (b >>> 3) := by
  have hr5 : r >>> 3 < 2 ^ 5 := by rw [Nat.shiftRight_eq_div_pow]; omega
  have hg6 : g >>> 2 < 2 ^ 6 := by rw [Nat.shiftRight_eq_div_pow]; omega
  have hb5 : b >>> 3 < 2 ^ 5 := by rw [Nat.shiftRight_eq_div_pow]; omega
  simp only [rgb565, and_mask_of_lt 5 0x1F (by norm_num) hr5,
    and_mask_of_lt 6 0x3F (by norm_num) hg6, and_mask_of_lt 5 0x1F (by norm_num) hb5]

/-- The two emitted bytes are the low byte then the high byte of the word. -/
theorem pixelBytes_le (r g b : Nat) :
    pixelBytes (r, g, b) = [rgb565 r g b % 256, rgb565 r g b / 256 % 256] := by
  have h := rgb565_lt r g b
  have hlo : rgb565 r g b &&& 0xFF = rgb565 r g b % 256 := by
    have := Nat.and_pow_two_sub_one_eq_mod (rgb565 r g b) 8
    simpa using this
  have hhi : (rgb565 r g b >>> 8) &&& 0xFF = rgb565 r g b / 256 % 256 := by
    rw [Nat.shiftRight_eq_div_pow]
    have := Nat.and_pow_two_sub_one_eq_mod (rgb565 r g b / 2 ^ 8) 8
    simpa using this
  simp only [pixelBytes, hlo, hhi]

/-- Little-endian: the emitted byte pair recombines to the packed word. -/
theorem pixelBytes_recombine (r g b : Nat) :
    ∃ lo hi, pixelBytes (r, g, b) = [lo, hi] ∧ lo + 256 * hi = rgb565 r g b ∧
      lo < 256 ∧ hi < 256 := by
  have h := rgb565_lt r g b
  exact ⟨_, _, pixelBytes_le r g b, by omega, by omega, by omega⟩

theorem sextet_char_rt : ∀ n < 64, charToSextet (sextetToChar n) = n := by decide

theorem sextet_ne_pad : ∀ n < 64, sextetToChar n ≠ '=' := by decide

theorem b64_roundtrip (bytes : List Nat) (h : ∀ x ∈ bytes, x < 256) :
    b64decodeChars (b64encodeBytes bytes) = bytes := by
  generalize hl : bytes.length = L
  induction L using Nat.strong_induction_on generalizing bytes with
  | _ L ih =>
    match bytes, h, hl with
    | [], _, _ => rfl
    | [a], h, _ =>
      have ha : a < 256 := h a (by simp)
      simp only [b64encodeBytes, b64decodeChars, if_pos rfl]
      rw [sextet_char_rt _ (by omega), sextet_char_rt _ (by omega)]
      simp only [if_true, List.cons.injEq, and_true]
      omega
    | [a, b], h, _ =>
      have ha : a < 256 := h a (by simp)
      have hb : b < 256 := h b (by simp)
      simp only [b64encodeBytes, b64decodeChars,
        if_neg (sextet_ne_pad (b % 16 * 4) (by omega)), if_pos rfl]
      rw [sextet_char_rt _ (by omega), sextet_char_rt _ (by omega),
        sextet_char_rt _ (by omega)]
      simp only [if_true, List.cons.injEq, and_true]
      omega
    | a :: b :: c :: rest, h, hl =>
      have ha : a < 256 := h a (by simp)
      have hb : b < 256 := h b (by simp)
      have hc : c < 256 := h c (by simp)
      have hrest : ∀ x ∈ rest, x < 256 := fun x hx => h x (by simp [hx])
      simp only [b64encodeBytes, b64decodeChars,
        if_neg (sextet_ne_pad (b % 16 * 4 + c / 64) (by omega)),
        if_neg (sextet_ne_pad (c % 64) (by omega))]
      rw [sextet_char_rt _ (by omega), sextet_char_rt _ (by omega),
        sextet_char_rt _ (by omega), sextet_char_rt _ (by omega),
        ih rest.length (by simp at hl; omega) rest hrest rfl]
      simp only [List.cons.injEq, and_true]
      refine ⟨by omega, by omega, by omega⟩

theorem chunksOf_nil (n : Nat) : chunksOf n [] = [] := by
  match n with
  | 0 => rfl
  | m + 1 =>
    simp only [chunksOf, List.length_nil]
    rw [Nat.div_eq_of_lt (by omega)]
    rfl

theorem chunksOf_cons {n : Nat} (hn : 0 < n) {s : List Char} (hs : s ≠ []) :
    chunksOf n s = s.take n :: chunksOf n (s.drop n) := by
  have hlen : 0 < s.length := List.length_pos.mpr hs
  have hk : (s.length + n - 1) / n = (s.length - 1) / n + 1 := by
    have h1 : s.length + n - 1 = (s.length - 1) + n := by omega
    rw [h1, Nat.add_div_right _ hn]
  have hk' : ((s.drop n).length + n - 1) / n = (s.length - 1) / n := by
    simp only [List.length_drop]
    rcases Nat.lt_or_ge s.length (n + 1) with h | h
    · have h0 : s.length - n = 0 := by omega
      rw [h0, Nat.div_eq_of_lt (by omega), Nat.div_eq_of_lt (by omega)]
    · have h1 : s.length - n + n - 1 = (s.length - n - 1) + n := by omega
      have h2 : s.length - 1 = (s.length - n - 1) + n := by omega
      rw [h1, h2, Nat.add_div_right _ hn]
  unfold chunksOf
  rw [hk, hk', List.range_succ_eq_map, List.map_cons, List.map_map]
  simp only [Nat.zero_mul, List.drop_zero]
  congr 1
  apply List.map_congr_left
  intro i _
  simp only [Function.comp_apply, List.drop_drop]
  congr 2
  rw [Nat.succ_mul, Nat.mul_comm]
  omega

theorem flatten_chunksOf {n : Nat} (hn : 0 < n) (s : List Char) :
    (chunksOf n s).flatten = s := by
  generalize hl : s.length = L
  induction L using Nat.strong_induction_on generalizing s with
  | _ L ih =>
    rcases eq_or_ne s [] with rfl | hs
    · rw [chunksOf_nil]; rfl
    · have hlen : 0 < s.length := List.length_pos.mpr hs
      rw [chunksOf_cons hn hs, List.flatten_cons,
        ih ((s.drop n).length) (by simp only [List.length_drop]; omega) _ rfl]
      exact List.take_append_drop n s

theorem reassemble_filter (cs : List (List Char)) :
    reassemble ((cs.map (fun ch => imgHeader ++ ch ++ ['\n'])) ++ [imgEndLine]) =
      cs.flatten := by
  induction cs with
  | nil => rfl
  | cons ch rest ih =>
    simp only [List.map_cons, List.cons_append, reassemble, List.filter_cons] at ih ⊢
    have hkeep : ((imgHeader ++ ch ++ ['\n']).take 4 == imgHeader) = true := by
      rw [List.append_assoc, List.take_left' (by rfl)]
      exact beq_self_eq_true imgHeader
    rw [hkeep]
    simp only [if_true, List.map_cons, List.flatten_cons] at ih ⊢
    rw [List.append_assoc, List.drop_left' (by rfl), List.dropLast_concat]
    rw [ih]

/-- Splitting the base64 text of an artwork into wire lines and
reassembling recovers the base64 text exactly. -/
theorem reassemble_artworkLines (b64 : List Char) :
    reassemble (artworkLines b64) = b64 := by
  rw [artworkLines, reassemble_filter]
  exact flatten_chunksOf (by norm_num [CHUNK_SIZE]) b64

/-! ### Queue bound preservation -/

theorem applyOp_bounded (st : QueueState) (op : EnqueueOp) (h : Bounded st) :
    Bounded (applyOp st op) := by
  obtain ⟨h1, h2, h3, h4⟩ := h
  cases op with
  | qsend item p =>
    simp only [applyOp, queue_send]
    split <;> split <;>
      simp_all [Bounded, List.length_append] <;> omega
  | monSnapshot item =>
    simp only [applyOp, monitorSnapshotEnqueue, SERIAL_MAX_QUEUE]
    split <;> (simp_all [Bounded, List.length_append, List.length_tail]; try omega)
  | monArtwork item =>
    simp only [applyOp, monitorArtworkEnqueue]
    split <;> split <;>
      simp_all [Bounded, List.length_append, List.length_tail] <;> omega
  | artChunk item =>
    simp only [applyOp, artworkChunkEnqueue, monitorArtworkEnqueue]
    split <;> split <;>
      simp_all [Bounded, List.length_append, List.length_tail] <;> omega

theorem applyOps_bounded (ops : List EnqueueOp) :
    ∀ st : QueueState, Bounded st → Bounded (applyOps st ops) := by
  induction ops with
  | nil => intro st h; exact h
  | cons op rest ih =>
    intro st h
    exact ih (applyOp st op) (applyOp_bounded st op h)

/-- C1 (counterexample). The claim asserts FIFO eviction on every enqueue
path; but `TransportManager.queue_send` on a full priority queue drops the
NEW item and leaves the queue unchanged: with the priority queue at
capacity `[i0, i1]`, enqueueing `i2` yields `[i0, i1]` again, not the
claimed `[i1, i2]`. -/
theorem C1_counterexample_queue_send_drop_new :
    queue_send ⟨[⟨[0], "artwork"⟩, ⟨[1], "artwork"⟩], [], [], []⟩ ⟨[2], "artwork"⟩ true =
      ⟨[⟨[0], "artwork"⟩, ⟨[1], "artwork"⟩], [], [], []⟩ ∧
    (queue_send ⟨[⟨[0], "artwork"⟩, ⟨[1], "artwork"⟩], [], [], []⟩
        ⟨[2], "artwork"⟩ true).tmPrio ≠
      [⟨[1], "artwork"⟩, ⟨[2], "artwork"⟩] := by
  constructor
  · rfl
  · decide

/-- C1 (amended). Over every sequence of enqueue operations the priority
queues never hold more than 2 items and the normal queues never more than
8, and no producer-side put can block (every enqueue is a total function
modelling the source's non-blocking puts). On the monitor loop's enqueue
paths a full queue evicts its oldest entry before the new entry is
appended; in `TransportManager.queue_send` a full queue instead drops the
new entry and is left unchanged. -/
theorem C1_queue_bounds_and_eviction :
    (∀ (st : QueueState) (ops : List EnqueueOp),
      Bounded st → Bounded (applyOps st ops)) ∧
    (∀ (st : QueueState) (item : OutItem), st.mainNormal.length = 8 →
      (monitorSnapshotEnqueue st item).mainNormal = st.mainNormal.tail ++ [item]) ∧
    (∀ (st : QueueState) (item : OutItem), st.mainPrio.length = 2 →
      (monitorArtworkEnqueue st item).mainPrio = st.mainPrio.tail ++ [item]) ∧
    (∀ (st : QueueState) (item : OutItem), st.tmPrio.length = 2 →
      queue_send st item true = st) ∧
    (∀ (st : QueueState) (item : OutItem), st.tmNormal.length = 8 →
      queue_send st item false = st) := by
  refine ⟨fun st ops h => applyOps_bounded ops st h, ?_, ?_, ?_, ?_⟩
  · intro st item h
    simp [monitorSnapshotEnqueue, SERIAL_MAX_QUEUE, h]
  · intro st item h
    have htail : st.mainPrio.tail.length = 1 := by
      simp [List.length_tail, h]
    simp [monitorArtworkEnqueue, h, htail]
  · intro st item h
    simp [queue_send, h]
  · intro st item h
    simp [queue_send, h]

/-- C1 witness: concrete run of the amended theorem. Starting from empty
queues, a full-queue snapshot enqueue evicts the oldest entry, and the
bound invariant holds, e.g. after a sequence of 5 enqueue operations. -/
theorem C1_queue_bounds_and_eviction_witness :
    Bounded (applyOps ⟨[], [], [], []⟩
      [EnqueueOp.qsend ⟨[0], "snapshot"⟩ false,
        EnqueueOp.qsend ⟨[1], "artwork"⟩ true,
        EnqueueOp.monSnapshot ⟨[2], "snapshot"⟩,
        EnqueueOp.monArtwork ⟨[3], "artwork"⟩,
        EnqueueOp.artChunk ⟨[4], "artwork_chunk"⟩]) ∧
    (monitorSnapshotEnqueue
        ⟨[], [], [],
          [⟨[0], "s"⟩, ⟨[1], "s"⟩, ⟨[2], "s"⟩, ⟨[3], "s"⟩,
            ⟨[4], "s"⟩, ⟨[5], "s"⟩, ⟨[6], "s"⟩, ⟨[7], "s"⟩]⟩
        ⟨[8], "s"⟩).mainNormal =
      [⟨[1], "s"⟩, ⟨[2], "s"⟩, ⟨[3], "s"⟩, ⟨[4], "s"⟩,
        ⟨[5], "s"⟩, ⟨[6], "s"⟩, ⟨[7], "s"⟩, ⟨[8], "s"⟩] :=
  ⟨C1_queue_bounds_and_eviction.1 ⟨[], [], [], []⟩ _
      ⟨by decide, by decide, by decide, by decide⟩,
    by
      rw [C1_queue_bounds_and_eviction.2.1 _ _ (by decide)]
      rfl⟩

/-- C2. In any writer-loop iteration (of either writer) whose priority
queue is non-empty, the normal queue is untouched, and the message sent,
if one is sent at all, is the head of the priority queue, which is then
removed. -/
theorem C2_priority_preempts_normal (ts : List TransportEntry) (serPresent : Bool)
    (item : OutItem) (rest normal : List OutItem) :
    ((transport_writer_iter ts (item :: rest) normal).dequeuedNormal = false ∧
      (transport_writer_iter ts (item :: rest) normal).normal = normal ∧
      ((transport_writer_iter ts (item :: rest) normal).sent = none ∨
        ((transport_writer_iter ts (item :: rest) normal).sent = some item ∧
          (transport_writer_iter ts (item :: rest) normal).prio = rest))) ∧
    ((serial_writer_iter serPresent (item :: rest) normal).dequeuedNormal = false ∧
      (serial_writer_iter serPresent (item :: rest) normal).normal = normal ∧
      ((serial_writer_iter serPresent (item :: rest) normal).sent = none ∨
        ((serial_writer_iter serPresent (item :: rest) normal).sent = some item ∧
          (serial_writer_iter serPresent (item :: rest) normal).prio = rest))) := by
  constructor
  · cases hact : get_active_transport ts with
    | none => simp [transport_writer_iter, hact]
    | some t => simp [transport_writer_iter, hact]
  · cases serPresent <;> simp [serial_writer_iter]

/-- C3 (counterexample). The spec's scenario value is wrong: the pixel
(255, 128, 0) does not pack to `0xFD80`. -/
theorem C3_counterexample_not_fd80 : rgb565 255 128 0 ≠ 0xFD80 := by decide

/-- C3 (amended). The pixel (255, 128, 0) packs to `0xFC00`, which is the
claim's own field values and bit layout r5=31, g6=32, b5=0
(`11111 100000 00000`); for byte inputs the packing equals the claimed
formula `((r>>3)<<11) | ((g>>2)<<5) | (b>>3)`; each pixel is emitted as
its low byte then its high byte (little-endian), and the buffer is the
concatenation of rows top-to-bottom, pixels left-to-right. -/
theorem C3_pixel_format :
    rgb565 255 128 0 = 0xFC00 ∧
    ((31 : Nat) <<< 11) ||| ((32 : Nat) <<< 5) ||| 0 = 0xFC00 ∧
    (∀ r g b : Nat, r < 256 → g < 256 → b < 256 →
      rgb565 r g b = ((r >>> 3) <<< 11) ||| ((g >>> 2) <<< 5) ||| (b >>> 3)) ∧
    (∀ r g b : Nat,
      pixelBytes (r, g, b) = [rgb565 r g b % 256, rgb565 r g b / 256 % 256]) ∧
    (∀ img : List (List (Nat × Nat × Nat)),
      rgb_to_rgb565 img = (img.map (fun row => (row.map pixelBytes).flatten)).flatten) :=
  ⟨by decide, by decide, rgb565_formula, pixelBytes_le, rgb_to_rgb565_eq_flatten⟩

/-- C3 witness: the amended formula evaluated at the scenario pixel. -/
theorem C3_pixel_format_witness :
    rgb565 255 128 0 = ((255 >>> 3) <<< 11) ||| ((128 >>> 2) <<< 5) ||| (0 >>> 3) :=
  C3_pixel_format.2.2.1 255 128 0 (by decide) (by decide) (by decide)

/-- C4. Round-trip: for a pixel buffer of `W*H*2` bytes, base64-encoding
it (`rgb565_to_base64`), splitting into `IMG:` chunk lines with the
`IMG_END` terminator as `send_artwork_to_esp` does, then stripping the
framing, concatenating the chunks and base64-decoding yields exactly the
original bytes. -/
theorem C4_artwork_roundtrip (W H : Nat) (buf : List Nat)
    (_hlen : buf.length = W * H * 2) (hbytes : ∀ x ∈ buf, x < 256) :
    b64decodeChars (reassemble (artworkLines (rgb565_to_base64 buf))) = buf := by
  rw [rgb565_to_base64, reassemble_artworkLines]
  exact b64_roundtrip buf hbytes

/-- C4 witness: a concrete 1×1 pixel buffer (2 bytes). -/
theorem C4_artwork_roundtrip_witness :
    b64decodeChars (reassemble (artworkLines (rgb565_to_base64 [3, 250]))) = [3, 250] :=
  C4_artwork_roundtrip 1 1 [3, 250] (by decide) (by decide)

/-- `find?` returns the first element satisfying the predicate: there is
an index holding the result such that every earlier index fails the
predicate. -/
theorem find?_first {α : Type} (p : α → Bool) :
    ∀ (l : List α) (a : α), l.find? p = some a →
      ∃ n : Nat, l[n]? = some a ∧ p a = true ∧
        ∀ m : Nat, m < n → ∀ b, l[m]? = some b → p b = false := by
  intro l
  induction l with
  | nil => intro a h; simp [List.find?] at h
  | cons x xs ih =>
    intro a h
    by_cases hp : p x
    · rw [List.find?_cons_of_pos _ hp] at h
      obtain rfl : x = a := by injection h
      exact ⟨0, by simp, hp, fun m hm => absurd hm (by omega)⟩
    · rw [List.find?_cons_of_neg _ hp] at h
      obtain ⟨n, hget, hpa, hmin⟩ := ih a h
      refine ⟨n + 1, by simpa using hget, hpa, ?_⟩
      intro m hm b hb
      cases m with
      | zero =>
        simp only [List.getElem?_cons_zero, Option.some.injEq] at hb
        subst hb
        simpa using hp
      | succ m' =>
        exact hmin m' (by omega) b (by simpa using hb)

/-- C7. Freshly evaluated on each writer-loop iteration: the selected
transport is the first registered TCP transport reporting connected;
failing that, the first registered serial transport reporting connected;
failing both, no transport is selected and the iteration idles, touching
neither queue and sending nothing. -/
theorem C7_active_transport_selection :
    (∀ ts : List TransportEntry, (∃ t ∈ ts, isTcpConn t = true) →
      ∃ (n : Nat) (a : TransportEntry), ts[n]? = some a ∧ get_active_transport ts = some a ∧
        isTcpConn a = true ∧
        ∀ m : Nat, m < n → ∀ b, ts[m]? = some b → isTcpConn b = false) ∧
    (∀ ts : List TransportEntry, (∀ t ∈ ts, isTcpConn t = false) →
      (∃ t ∈ ts, isSerialConn t = true) →
      ∃ (n : Nat) (a : TransportEntry), ts[n]? = some a ∧ get_active_transport ts = some a ∧
        isSerialConn a = true ∧
        ∀ m : Nat, m < n → ∀ b, ts[m]? = some b → isSerialConn b = false) ∧
    (∀ ts : List TransportEntry, (∀ t ∈ ts, isTcpConn t = false) →
      (∀ t ∈ ts, isSerialConn t = false) →
      get_active_transport ts = none ∧
      ∀ prio normal, transport_writer_iter ts prio normal =
        ⟨prio, normal, none, false⟩) := by
  refine ⟨?_, ?_, ?_⟩
  · intro ts hex
    have hsome : (ts.find? isTcpConn).isSome := by
      rw [List.find?_isSome]
      obtain ⟨t, ht, hc⟩ := hex
      exact ⟨t, ht, hc⟩
    obtain ⟨a, ha⟩ := Option.isSome_iff_exists.mp hsome
    obtain ⟨n, hget, hpa, hmin⟩ := find?_first isTcpConn ts a ha
    exact ⟨n, a, hget, by simp [get_active_transport, ha], hpa, hmin⟩
  · intro ts hno hex
    have hnone : ts.find? isTcpConn = none := by
      rw [List.find?_eq_none]
      intro x hx
      simp [hno x hx]
    have hsome : (ts.find? isSerialConn).isSome := by
      rw [List.find?_isSome]
      obtain ⟨t, ht, hc⟩ := hex
      exact ⟨t, ht, hc⟩
    obtain ⟨a, ha⟩ := Option.isSome_iff_exists.mp hsome
    obtain ⟨n, hget, hpa, hmin⟩ := find?_first isSerialConn ts a ha
    exact ⟨n, a, hget, by simp [get_active_transport, hnone, ha], hpa, hmin⟩
  · intro ts hno1 hno2
    have hnone1 : ts.find? isTcpConn = none := by
      rw [List.find?_eq_none]
      intro x hx
      simp [hno1 x hx]
    have hnone2 : ts.find? isSerialConn = none := by
      rw [List.find?_eq_none]
      intro x hx
      simp [hno2 x hx]
    have hact : get_active_transport ts = none := by
      simp [get_active_transport, hnone1, hnone2]
    exact ⟨hact, fun prio normal => by simp [transport_writer_iter, hact]⟩

/-- C7 witness: with a connected serial transport registered before a
connected TCP transport, the TCP one is selected; with nothing connected,
no transport is selected and the writer iteration is the identity. -/
theorem C7_active_transport_selection_witness :
    (∃ (n : Nat) (a : TransportEntry), ([⟨TKind.serial, true⟩, ⟨TKind.tcp, true⟩] : List TransportEntry)[n]? =
        some a ∧
      get_active_transport [⟨TKind.serial, true⟩, ⟨TKind.tcp, true⟩] = some a ∧
      isTcpConn a = true ∧
      ∀ m : Nat, m < n →
        ∀ b, ([⟨TKind.serial, true⟩, ⟨TKind.tcp, true⟩] : List TransportEntry)[m]? =
          some b → isTcpConn b = false) ∧
    get_active_transport [⟨TKind.serial, false⟩, ⟨TKind.tcp, false⟩] = none :=
  ⟨C7_active_transport_selection.1 _ ⟨⟨TKind.tcp, true⟩, by decide, by decide⟩,
    (C7_active_transport_selection.2.2 _ (by decide) (by decide)).1⟩

/-- C5 (counterexample). The claim asserts that submitting the same
artwork URL twice (no job in flight) emits identical chunk sequences both
times; but `send_artwork_to_esp` returns immediately when the URL equals
`_last_artwork_url`, so the second submission emits no lines at all while
the first emits the full framed transfer. -/
theorem C5_counterexample_second_submission_empty :
    (send_artwork_to_esp
        (send_artwork_to_esp ⟨none⟩ true "u" (fun _ => some [0, 0])).2
        true "u" (fun _ => some [0, 0])).1 ≠
      (send_artwork_to_esp ⟨none⟩ true "u" (fun _ => some [0, 0])).1 := by
  decide

/-- C5 (amended). With a serial handle, a non-empty URL that differs from
`_last_artwork_url`, and a successful fetch, a submission emits exactly
the framed chunk sequence of the fetched buffer and records the URL; an
immediate resubmission of the same URL is suppressed by the last-sent-URL
check and emits nothing, leaving the state unchanged. (The emitted
sequence is a deterministic function of the fetched bytes, so identical
sequences would again be produced once the dedup state is cleared.) -/
theorem C5_resubmission_suppressed (st : ArtworkSendState) (url : String)
    (data : List Nat) (fetch : String → Option (List Nat))
    (hurl : url ≠ "") (hfetch : fetch url = some data)
    (hnew : st.lastArtworkUrl ≠ some url) :
    (send_artwork_to_esp st true url fetch).1 =
      artworkLines (rgb565_to_base64 data) ∧
    (send_artwork_to_esp st true url fetch).2 = ⟨some url⟩ ∧
    (send_artwork_to_esp (send_artwork_to_esp st true url fetch).2
        true url fetch).1 = [] ∧
    (send_artwork_to_esp (send_artwork_to_esp st true url fetch).2
        true url fetch).2 = (send_artwork_to_esp st true url fetch).2 := by
  have hne : (some url == st.lastArtworkUrl) = false := by
    rw [beq_eq_false_iff_ne]
    exact fun h => hnew h.symm
  have hfirst : send_artwork_to_esp st true url fetch =
      (artworkLines (rgb565_to_base64 data), ⟨some url⟩) := by
    simp [send_artwork_to_esp, hurl, hne, hfetch]
  rw [hfirst]
  refine ⟨rfl, rfl, ?_, ?_⟩ <;> simp [send_artwork_to_esp, hurl]

/-- C5 witness: a concrete first submission and suppressed resubmission. -/
theorem C5_resubmission_suppressed_witness :
    (send_artwork_to_esp ⟨none⟩ true "u" (fun _ => some [0, 0])).1 =
      artworkLines (rgb565_to_base64 [0, 0]) ∧
    (send_artwork_to_esp ⟨none⟩ true "u" (fun _ => some [0, 0])).2 = ⟨some "u"⟩ ∧
    (send_artwork_to_esp (send_artwork_to_esp ⟨none⟩ true "u"
        (fun _ => some [0, 0])).2 true "u" (fun _ => some [0, 0])).1 = [] ∧
    (send_artwork_to_esp (send_artwork_to_esp ⟨none⟩ true "u"
        (fun _ => some [0, 0])).2 true "u" (fun _ => some [0, 0])).2 =
      (send_artwork_to_esp ⟨none⟩ true "u" (fun _ => some [0, 0])).2 :=
  C5_resubmission_suppressed ⟨none⟩ "u" [0, 0] (fun _ => some [0, 0])
    (by decide) rfl (by decide)

/-- C6. With the serial handle open, a tick whose fingerprint differs from
the last sent one enqueues its snapshot line and records fingerprint and
time; an immediately following tick with the identical fingerprint within
the minimum resend interval enqueues nothing and leaves the state
unchanged — so the two ticks enqueue exactly one snapshot line, while
both ticks still broadcast locally. -/
theorem C6_fingerprint_dedup (st : MonitorState) (fp : String)
    (t1 t2 minI : Nat) (line1 line2 : OutItem)
    (hfresh : st.lastFingerprint ≠ some fp)
    (helapsed : t2 - t1 < minI) :
    (monitor_tick st true fp t1 minI line1).broadcast = true ∧
    (monitor_tick st true fp t1 minI line1).enqueued = true ∧
    (monitor_tick (monitor_tick st true fp t1 minI line1).state
        true fp t2 minI line2).broadcast = true ∧
    (monitor_tick (monitor_tick st true fp t1 minI line1).state
        true fp t2 minI line2).enqueued = false ∧
    (monitor_tick (monitor_tick st true fp t1 minI line1).state
        true fp t2 minI line2).state =
      (monitor_tick st true fp t1 minI line1).state := by
  have hne : (st.lastFingerprint == some fp) = false :=
    beq_eq_false_iff_ne.mpr hfresh
  have h1 : monitor_tick st true fp t1 minI line1 =
      ⟨true, true,
        ⟨some fp, t1,
          (if st.queue.length ≥ SERIAL_MAX_QUEUE then st.queue.tail
            else st.queue) ++ [line1]⟩⟩ := by
    simp [monitor_tick, hne]
  rw [h1]
  simp [monitor_tick, helapsed]

/-- C6 witness: concrete pair of ticks from a fresh state. -/
theorem C6_fingerprint_dedup_witness :
    (monitor_tick ⟨none, 0, []⟩ true "fp" 0 1 ⟨[1], "snapshot"⟩).enqueued = true ∧
    (monitor_tick (monitor_tick ⟨none, 0, []⟩ true "fp" 0 1 ⟨[1], "snapshot"⟩).state
        true "fp" 0 1 ⟨[2], "snapshot"⟩).enqueued = false :=
  ⟨(C6_fingerprint_dedup ⟨none, 0, []⟩ "fp" 0 0 1 ⟨[1], "snapshot"⟩ ⟨[2], "snapshot"⟩
      (by decide) (by decide)).2.1,
    (C6_fingerprint_dedup ⟨none, 0, []⟩ "fp" 0 0 1 ⟨[1], "snapshot"⟩ ⟨[2], "snapshot"⟩
      (by decide) (by decide)).2.2.2.1⟩

/-- C8 (counterexample). The claim asserts a write error closes the serial
handle and `is_connected` becomes false; but `SerialTransport.send_line`
only logs the exception and returns `False` — with an open handle, after
an erroring write `is_connected` still reports true. -/
theorem C8_counterexample_still_connected :
    (serial_send_line ⟨some true⟩ WriteOutcome.err).1 = false ∧
    serial_is_connected (serial_send_line ⟨some true⟩ WriteOutcome.err).2 = true := by
  decide

/-- C8 (amended). A write error in `SerialTransport.send_line` returns
`False` and a read error in `SerialTransport.recv_line` returns `None`;
neither closes nor clears the handle: the transport state — and hence
`is_connected` — is unchanged by every send/receive outcome, and nothing
in these methods reopens a closed transport. -/
theorem C8_serial_error_state_unchanged (st : SerialState) (w : WriteOutcome)
    (o : ReadOutcome) :
    (serial_send_line st WriteOutcome.err).1 = false ∧
    (serial_recv_line st ReadOutcome.err).1 = none ∧
    (serial_send_line st w).2 = st ∧
    (serial_recv_line st o).2 = st ∧
    serial_is_connected (serial_send_line st w).2 = serial_is_connected st ∧
    serial_is_connected (serial_recv_line st o).2 = serial_is_connected st := by
  obtain ⟨s⟩ := st
  cases s <;> cases w <;> cases o <;>
    simp [serial_send_line, serial_recv_line, serial_is_connected]

/-- C10. A disconnected transport (no serial handle / no TCP client)
returns `False` from `send_line` and `None` from `recv_line`, without
raising and without modifying the transport's connection state. -/
theorem C10_disconnected_noop (sst : SerialState) (tst : TcpState)
    (w w2 : WriteOutcome) (o : ReadOutcome) (o2 : TcpRecvOutcome)
    (hs : sst.serial = none) (ht : tst.client = none) :
    serial_send_line sst w = (false, sst) ∧
    serial_recv_line sst o = (none, sst) ∧
    tcp_send_line tst w2 = (false, tst) ∧
    tcp_recv_line tst o2 = (none, tst) := by
  obtain ⟨s⟩ := sst
  obtain ⟨c, buf⟩ := tst
  simp only at hs ht
  subst hs
  subst ht
  exact ⟨rfl, rfl, rfl, rfl⟩

/-- C10 witness: concrete disconnected serial and TCP states. -/
theorem C10_disconnected_noop_witness :
    serial_send_line ⟨none⟩ WriteOutcome.err = (false, ⟨none⟩) ∧
    serial_recv_line ⟨none⟩ (ReadOutcome.line "x".toList) = (none, ⟨none⟩) ∧
    tcp_send_line ⟨none, []⟩ WriteOutcome.ok = (false, ⟨none, []⟩) ∧
    tcp_recv_line ⟨none, []⟩ (TcpRecvOutcome.data "y".toList) = (none, ⟨none, []⟩) :=
  C10_disconnected_noop ⟨none⟩ ⟨none, []⟩ WriteOutcome.err WriteOutcome.ok
    (ReadOutcome.line "x".toList) (TcpRecvOutcome.data "y".toList) rfl rfl

/-- C9. For every received line: a `json.loads` failure is logged and
skipped; parses that are not objects are rejected; objects whose
`cmd`/`type` field is absent or falsy are rejected; well-formed commands
are routed by exact string match on the kind with the handler's exception
(if any) caught per command; unknown kinds are logged without failing.
`dispatch_line` is a total function, so every line yields an outcome and
the reader loop proceeds to the next line. -/
theorem C9_command_dispatch :
    (∀ handler, dispatch_line none handler = DispatchOutcome.notJson) ∧
    (∀ handler, dispatch_line (some JValue.null) handler =
      DispatchOutcome.nonObject) ∧
    (∀ handler b, dispatch_line (some (JValue.bool b)) handler =
      DispatchOutcome.nonObject) ∧
    (∀ handler n, dispatch_line (some (JValue.num n)) handler =
      DispatchOutcome.nonObject) ∧
    (∀ handler s, dispatch_line (some (JValue.str s)) handler =
      DispatchOutcome.nonObject) ∧
    (∀ handler xs, dispatch_line (some (JValue.arr xs)) handler =
      DispatchOutcome.nonObject) ∧
    (∀ handler fields, kindOf fields = none →
      dispatch_line (some (JValue.obj fields)) handler = DispatchOutcome.noKind) ∧
    (∀ handler fields k, kindOf fields = some k → truthy k = false →
      dispatch_line (some (JValue.obj fields)) handler = DispatchOutcome.noKind) ∧
    (∀ handler fields s, kindOf fields = some (JValue.str s) → s ≠ "" →
      s ∈ knownKinds →
      dispatch_line (some (JValue.obj fields)) handler =
        DispatchOutcome.routed s (handler s)) ∧
    (∀ handler fields s, kindOf fields = some (JValue.str s) → s ≠ "" →
      s ∉ knownKinds →
      dispatch_line (some (JValue.obj fields)) handler =
        DispatchOutcome.unknownKind) := by
  refine ⟨fun _ => rfl, fun _ => rfl, fun _ _ => rfl, fun _ _ => rfl,
    fun _ _ => rfl, fun _ _ => rfl, ?_, ?_, ?_, ?_⟩
  · intro handler fields hk
    simp [dispatch_line, hk]
  · intro handler fields k hk hfalsy
    simp [dispatch_line, hk, hfalsy]
  · intro handler fields s hk hs hmem
    have htruthy : truthy (JValue.str s) = true := by
      simp [truthy, hs]
    simp [dispatch_line, hk, htruthy, hmem]
  · intro handler fields s hk hs hmem
    have htruthy : truthy (JValue.str s) = true := by
      simp [truthy, hs]
    simp [dispatch_line, hk, htruthy, hmem]

/-- C9 witness: the line `{"cmd": "next"}` routes to the `next` handler
(spec scenario), `{"cmd": ""}` (falsy kind) is rejected, and `5` (a
non-object parse) is rejected. -/
theorem C9_command_dispatch_witness :
    dispatch_line (some (JValue.obj [("cmd", JValue.str "next")])) (fun _ => true) =
      DispatchOutcome.routed "next" true ∧
    dispatch_line (some (JValue.obj [("cmd", JValue.str "")])) (fun _ => true) =
      DispatchOutcome.noKind ∧
    dispatch_line (some (JValue.num 5)) (fun _ => true) =
      DispatchOutcome.nonObject :=
  ⟨C9_command_dispatch.2.2.2.2.2.2.2.2.1 (fun _ => true)
      [("cmd", JValue.str "next")] "next" rfl (by decide) (by decide),
    C9_command_dispatch.2.2.2.2.2.2.1 (fun _ => true)
      [("cmd", JValue.str "")] rfl,
    C9_command_dispatch.2.2.2.1 (fun _ => true) 5⟩

end MediaTracker


